import Mathlib

/-!
Shallow embedding of the bblade simulation core (latest variant of
`src/src/main.ts`, lines 1-2253): per-frame stat logic (stamina decay,
death/ring-out check, win condition), the collision-start combat handler,
the arena force field, the launch handler, the power-up cycle and
`resetMatch`.  JS numbers are modelled as `ℚ`; the one place where a JS
division can hit a zero denominator (the arena-force direction when the
entity sits exactly at the arena center) is modelled with `Option ℚ`
(`none` standing for the NaN the source produces there).  Planar
distances are compared through their squares (`Math.sqrt` is monotone on
nonnegative reals; a bridging lemma over `Real.sqrt` is proved where the
claim speaks of a distance).
-/

namespace BBlade

/-- `const ARENA_RADIUS = 300` (main.ts:289). -/
def ARENA_RADIUS : ℚ := 300

/-- `const FORCE_CONSTANT = 0.00002` (main.ts:291). -/
def FORCE_CONSTANT : ℚ := 2 / 100000

/-- `const BOWL_MAX_HEIGHT = 50` (main.ts:295). -/
def BOWL_MAX_HEIGHT : ℚ := 50

/-- `const RING_OUT_RADIUS = 350; // Arena is 300` (main.ts:1756). -/
def RING_OUT_RADIUS : ℚ := 350

/-- `const SUBSTEPS = 8` (main.ts:1693). -/
def SUBSTEPS : ℕ := 8

/-- `const subStepDelta = (1000 / 60) / SUBSTEPS` (main.ts:1708), in milliseconds. -/
def subStepDelta : ℚ := (1000 / 60) / 8

/-- `const POWERUP_DURATION = 5000` (main.ts:1354), milliseconds of wall-clock choice time. -/
def POWERUP_DURATION : ℚ := 5000

/-- `const REVEAL_DURATION = 2000` (main.ts:1355), milliseconds of wall-clock reveal time. -/
def REVEAL_DURATION : ℚ := 2000

/-- `const FRICTION_LOW = 0.02` (main.ts:553). -/
def FRICTION_LOW : ℚ := 2 / 100

/-- `const FRICTION_HIGH = 0.1` (main.ts:554). -/
def FRICTION_HIGH : ℚ := 1 / 10

/-- `const DISH_LOW = 2` (main.ts:556). -/
def DISH_LOW : ℚ := 2

/-- `const DISH_HIGH = 5` (main.ts:557). -/
def DISH_HIGH : ℚ := 5

/-- `const CURL_LOW = 1` (main.ts:559). -/
def CURL_LOW : ℚ := 1

/-- `const CURL_HIGH = 50` (main.ts:560). -/
def CURL_HIGH : ℚ := 50

/-- The combat- and physics-relevant fields of `interface BeybladeStats`
(main.ts:499-527).  The source field `def` is a Lean keyword and is named
`defense` here; purely visual fields (`beyScale`, `wheelColor`, `ringSides`,
`ringRadiusFactor`, `boltColor`, `boltSides`, `spinTrackColor`,
`spinTrackSize`, `tipColor`, `tipSize`) are omitted except for `ringColor`,
which the collision handler reads for the spark color.  `spl` is unused by
the game logic and omitted. -/
structure BeybladeStats where
  maxRpm : ℚ
  atk : ℚ
  defense : ℚ
  wt : ℚ
  sta : ℚ
  spd : ℚ
  crt : ℚ
  frictionAir : ℚ
  restitution : ℚ
  friction : ℚ
  densityBase : ℚ
  dishForce : ℚ
  curlForce : ℚ
  ringColor : ℕ
  deriving DecidableEq, Repr

/-- `PLAYER_STATS` (main.ts:699-727), non-visual fields. -/
def PLAYER_STATS : BeybladeStats :=
  { maxRpm := 1000, atk := 10, defense := 5, wt := 1, sta := 1, spd := 60
    crt := 1 / 5, frictionAir := FRICTION_LOW, restitution := 1 / 10
    friction := 1 / 5, densityBase := 1 / 20, dishForce := DISH_LOW
    curlForce := CURL_LOW, ringColor := 0x0088ff }

/-- `ENEMY_STATS` (main.ts:729-757), non-visual fields. -/
def ENEMY_STATS : BeybladeStats :=
  { maxRpm := 1000, atk := 10, defense := 5, wt := 1, sta := 1, spd := 60
    crt := 1 / 5, frictionAir := FRICTION_LOW, restitution := 1 / 10
    friction := 1 / 5, densityBase := 1 / 20, dishForce := DISH_LOW
    curlForce := CURL_LOW, ringColor := 0xff6600 }

/-- The mutable per-entity state of `interface GameEntity` (main.ts:529-541)
together with the mutable fields of its Matter body that the game logic reads
or writes.  `px, py` is the body position in the Matter plane; the Three mesh
planar position `(mesh.position.x, mesh.position.z)` is synced from it every
frame while the entity is alive, so a single planar position is carried.
`currentRpm` is `Option` because the source declares `currentRpm?: number`
and guards every access with `!== undefined`; `createBeyblade` initializes it
to `0`.  `stats` is non-optional because both entities are created with stats
(main.ts:801-809); the collision handler's `entity.stats` truthiness guard is
therefore equivalent to the entity being tracked at all.  `inWorld` records
whether the body is currently in the Matter world (`Composite.add/remove`). -/
structure EntityState where
  px : ℚ := 0
  py : ℚ := 0
  vx : ℚ := 0
  vy : ℚ := 0
  angVel : ℚ := 0
  angle : ℚ := 0
  forceX : ℚ := 0
  forceY : ℚ := 0
  torque : ℚ := 0
  stats : BeybladeStats
  currentRpm : Option ℚ := some 0
  isDead : Bool := false
  driftVelocity : Option (ℚ × ℚ × ℚ) := none
  driftRotation : Option (ℚ × ℚ × ℚ) := none
  inWorld : Bool := true
  deriving DecidableEq, Repr

/-- Which of the two entities (main.ts:816-817 `player` / `enemy`). -/
inductive Side
  | player
  | enemy
  deriving DecidableEq, Repr

/-- The opponent of a side.  Used by the win check: when `player` dies the
overlay shows `CPU WINS`, when `enemy` dies it shows `P1 WINS`
(main.ts:1811-1818), i.e. the winner is the other side. -/
def Side.other : Side → Side
  | .player => .enemy
  | .enemy => .player

/-- The cosmetic output of one `collisionStart` pair: sparks spawned at the
first contact point and one `playCollisionSound` call (main.ts:1662-1687).
`sparkCount = 0` models the `pair.collision.supports.length > 0` guard
failing. -/
structure CollisionEffect where
  sparkCount : ℕ
  sparkSpeed : ℚ
  sparkColor : ℕ
  soundVolume : ℚ
  soundIsCrit : Bool
  deriving DecidableEq, Repr

/-- `entity.currentRpm = Math.max(0, entity.currentRpm - dmg)` guarded by
`entity.currentRpm !== undefined` (main.ts:1650-1652, 1658-1660). -/
def applyDamage (rpm : Option ℚ) (dmg : ℚ) : Option ℚ :=
  match rpm with
  | some r => some (max 0 (r - dmg))
  | none => none

/-- The fallback / wall-hit branch of the collision handler
(main.ts:1678-1687): 5 gray (`0xaaaaaa`) sparks at speed 2 when there is a
contact point, and `playCollisionSound(0.1, false)`.  No entity state is
touched. -/
def wallHitEffect (hasSupport : Bool) : CollisionEffect :=
  { sparkCount := if hasSupport then 5 else 0
    sparkSpeed := 2
    sparkColor := 0xaaaaaa
    soundVolume := 1 / 10
    soundIsCrit := false }

/-- One pair of the `Events.on(engine, 'collisionStart')` handler
(main.ts:1638-1689).  `entityA`/`entityB` are the results of
`entities.find(e => e.body === pair.bodyA/B)` (`none` = untracked body, e.g.
a wall segment).  `randA`, `randB` are the two `Math.random()` crit rolls, in
call order.  Returns the updated participants and the cosmetic effect. -/
def collisionStep (entityA entityB : Option EntityState) (hasSupport : Bool)
    (randA randB : ℚ) : Option EntityState × Option EntityState × CollisionEffect :=
  match entityA, entityB with
  | some ea, some eb =>
      -- A hits B
      let critA := randA < ea.stats.crt
      let rawDmgA := if critA then ea.stats.atk * 2 else ea.stats.atk
      let dmgA := max 0 (rawDmgA - eb.stats.defense)
      let eb' := { eb with currentRpm := applyDamage eb.currentRpm dmgA }
      -- B hits A
      let critB := randB < eb.stats.crt
      let rawDmgB := if critB then eb.stats.atk * 2 else eb.stats.atk
      let dmgB := max 0 (rawDmgB - ea.stats.defense)
      let ea' := { ea with currentRpm := applyDamage ea.currentRpm dmgB }
      -- Sparks: white by default, attacker color on crit
      let isCrit := critA || critB
      let sparkColor := if critA then ea.stats.ringColor
        else if critB then eb.stats.ringColor else 0xffffff
      (some ea', some eb',
        { sparkCount := if hasSupport then (if isCrit then 15 else 5) else 0
          sparkSpeed := if isCrit then 5 else 2
          sparkColor := sparkColor
          soundVolume := if isCrit then 1 / 2 else 1 / 4
          soundIsCrit := isCrit })
  | _, _ => (entityA, entityB, wallHitEffect hasSupport)

/-- `const decay = entity.stats.sta * (subStepDelta / 1000) * SUBSTEPS`
(main.ts:1879): the spin-health lost per rendered frame, i.e. per
`SUBSTEPS` fixed substeps of simulated time. -/
def decayPerFrame (sta : ℚ) : ℚ := sta * (subStepDelta / 1000) * (SUBSTEPS : ℚ)

/-- The per-frame stamina decay of one rpm value (main.ts:1879-1882):
`if (currentRpm > 0) currentRpm = max(0, currentRpm - decay)`. -/
def frameDecay (sta rpm : ℚ) : ℚ :=
  if rpm > 0 then max 0 (rpm - decayPerFrame sta) else rpm

/-- `Math.sign(entity.body.angularVelocity) || 1` (main.ts:1891). -/
def jsSign (x : ℚ) : ℚ := if x > 0 then 1 else if x < 0 then -1 else 1

/-- The "RPG Stats Logic" block of the animate loop (main.ts:1876-1894):
stamina decay followed by re-deriving the angular velocity from the decayed
rpm (`targetAngularVelocity = currentRpm / 100`, sign-preserving). -/
def decayAngvel (e : EntityState) : EntityState :=
  match e.currentRpm with
  | some r =>
      let r' := frameDecay e.stats.sta r
      { e with currentRpm := some r', angVel := r' / 100 * jsSign e.angVel }
  | none => e

/-- The death transition itself (main.ts:1759-1808): `isDead := true`,
`currentRpm := 0`, drift velocity from the bowl-slope gradient dotted with
the horizontal velocity — or a small randomized float when the horizontal
speed is below `0.5` (compared on squares, both sides nonnegative) — scaled
by `1.2` plus a `0.5` lift in the fast case, reflected upward and clamped to
at least `0.5`; a small random angular drift; and removal of the body from
the physics world (`Composite.remove`).  Returns the dead entity and the
next random-stream index (each `Math.random()` reads one element, in source
call order). -/
def deathTransition (e : EntityState) (rng : ℕ → ℚ) (i : ℕ) : EntityState × ℕ :=
  let vx := e.vx
  let vz := e.vy
  let k := BOWL_MAX_HEIGHT / (ARENA_RADIUS * ARENA_RADIUS)
  let vyDrift := 2 * k * e.px * vx + 2 * k * e.py * vz
  let speedSq := vx ^ 2 + vz ^ 2
  -- `speed < 0.5` on squares
  let slow := speedSq < (1 / 2 : ℚ) ^ 2
  let dvx := if slow then (rng i - 1 / 2) * (1 / 2) else vx * (6 / 5)
  let dvy := if slow then (1 / 2 : ℚ) else vyDrift * (6 / 5) + 1 / 2
  let dvz := if slow then (rng (i + 1) - 1 / 2) * (1 / 2) else vz * (6 / 5)
  let i₁ := if slow then i + 2 else i
  let dvy₁ := if dvy < 0 then -dvy else dvy
  let dvy₂ := max dvy₁ (1 / 2)
  let rot := (rng i₁ * (1 / 5) - 1 / 10, rng (i₁ + 1) * (1 / 5) - 1 / 10,
    rng (i₁ + 2) * (1 / 5) - 1 / 10)
  ({ e with
      isDead := true
      currentRpm := some 0
      driftVelocity := some (dvx, dvy₂, dvz)
      driftRotation := some rot
      inWorld := false }, i₁ + 3)

/-- The death-logic check of the animate loop for one entity
(main.ts:1752-1820).  Inputs: the side (for the win message), `hasLaunched`,
the entity, the `gameOver` flag, the recorded winner, and the random stream
`rng` with its next index `i`.  The ring-out comparison
`Math.sqrt(x*x + z*z) > RING_OUT_RADIUS` is modelled on squares, which is
equivalent for nonnegative reals (bridging lemma in `death_check_law`).
On death the win check runs: if the match is not yet over it becomes
game-over with the other side recorded as winner (`CPU WINS` when the
player died, `P1 WINS` when the enemy died). -/
def deathEval (side : Side) (hasLaunched : Bool) (e : EntityState)
    (gameOver : Bool) (winner : Option Side) (rng : ℕ → ℚ) (i : ℕ) :
    EntityState × Bool × Option Side × ℕ :=
  match e.currentRpm with
  | none => (e, gameOver, winner, i)
  | some r =>
      if e.isDead = false ∧ hasLaunched = true then
        if r ≤ 0 ∨ e.px ^ 2 + e.py ^ 2 > RING_OUT_RADIUS ^ 2 then
          let t := deathTransition e rng i
          if gameOver = false then (t.1, true, some side.other, t.2)
          else (t.1, gameOver, winner, t.2)
        else (e, gameOver, winner, i)
      else (e, gameOver, winner, i)

/-- One entity's pass of the animate `entities.forEach` (main.ts:1748-1895):
the death check, then — unless the entity is (now) dead, which makes the
source `return` before the stats logic — stamina decay and angular-velocity
re-derivation. -/
def frameEntityStep (side : Side) (hasLaunched : Bool) (e : EntityState)
    (gameOver : Bool) (winner : Option Side) (rng : ℕ → ℚ) (i : ℕ) :
    EntityState × Bool × Option Side × ℕ :=
  let r := deathEval side hasLaunched e gameOver winner rng i
  if r.1.isDead then r
  else ⟨decayAngvel r.1, r.2⟩

/-- The launch of one entity (main.ts:1983-2017): velocity
`(cos θ, sin θ) * spd * 0.1` — the direction cosines are passed in as
`dirX, dirY` — then `currentRpm := maxRpm` and angular velocity
`currentRpm / 100`. -/
def launchEntity (dirX dirY : ℚ) (e : EntityState) : EntityState :=
  { e with
    vx := dirX * e.stats.spd * (1 / 10)
    vy := dirY * e.stats.spd * (1 / 10)
    currentRpm := some e.stats.maxRpm
    angVel := e.stats.maxRpm / 100 }

/-- JS division as the source uses it for the arena-force direction
(main.ts:1723-1724): a zero denominator yields NaN (`0/0`) or ±Infinity,
neither a real number — modelled as `none`. -/
def jsDiv (a b : ℚ) : Option ℚ := if b = 0 then none else some (a / b)

/-- The per-substep dish + curl force applied to a live launched entity
(main.ts:1716-1742).  `dist = Math.sqrt(px² + py²)` is passed in; the
radial direction is `(-px/dist, -py/dist)`, the tangent its clockwise
rotation, and the combined vector is
`radial * dishMagnitude + tangent * curlMagnitude`.  The source's
`if (dist == 0) return;` guard is commented out (main.ts:1721), so at
`dist = 0` the division is `0/0` and the result is NaN — `none` here. -/
def entityForce (st : BeybladeStats) (mass px py dist : ℚ) : Option (ℚ × ℚ) :=
  match jsDiv (-px) dist, jsDiv (-py) dist with
  | some radialX, some radialY =>
      let tangentX := radialY
      let tangentY := -radialX
      let dishMagnitude := FORCE_CONSTANT * mass * dist * st.dishForce
      let curlMagnitude := FORCE_CONSTANT * mass * (1 - dist / ARENA_RADIUS) * st.curlForce
      some (radialX * dishMagnitude + tangentX * curlMagnitude,
            radialY * dishMagnitude + tangentY * curlMagnitude)
  | _, _ => none

/-- The seven power-up kinds of `POWERUP_TYPES` (main.ts:563-627), by id. -/
inductive PowerUpId
  | atk_boost
  | def_boost
  | sta_drain
  | crit_boost
  | swap_drag
  | swap_radial
  | swap_tangent
  deriving DecidableEq, Repr

/-- The `apply` function of each power-up (main.ts:563-627) on the live
stats.  `swap_drag` also copies the new `frictionAir` onto the Matter body,
which mirrors the stats field and is not modelled separately. -/
def applyPowerUp : PowerUpId → BeybladeStats → BeybladeStats
  | .atk_boost, st => { st with atk := st.atk + 2 }
  | .def_boost, st => { st with defense := st.defense + 2 }
  | .sta_drain, st => { st with sta := st.sta * (19 / 20) }
  | .crit_boost, st => { st with crt := st.crt + 1 / 20 }
  | .swap_drag, st =>
      { st with frictionAir := if st.frictionAir ≠ FRICTION_LOW then FRICTION_LOW else FRICTION_HIGH }
  | .swap_radial, st =>
      { st with dishForce := if st.dishForce ≠ DISH_LOW then DISH_LOW else DISH_HIGH }
  | .swap_tangent, st =>
      { st with curlForce := if st.curlForce ≠ CURL_LOW then CURL_LOW else CURL_HIGH }

/-- A power-up applied to an entity mutates only its live stats. -/
def applyPowerUpE (p : PowerUpId) (e : EntityState) : EntityState :=
  { e with stats := applyPowerUp p e.stats }

/-- `interface PowerUpState` (main.ts:1345-1352) plus the drawn cards
`currentPowerups` (main.ts:1366) and the pool contents
(`PowerUpPool.pool`, main.ts:644-693), by id. -/
structure PowerUpSysState where
  isActive : Bool := false
  elapsedTime : ℚ := 0
  playerChoice : Option (PowerUpId × ℕ) := none
  enemyChoice : Option (PowerUpId × ℕ) := none
  isRevealing : Bool := false
  revealTime : ℚ := 0
  currentPowerups : List PowerUpId := []
  pool : List PowerUpId := []
  deriving DecidableEq, Repr

/-- The whole mutable simulation state the animate callback reads and
writes: both entities, the power-up cycle, the match flags, and the cursor
into the explicit random stream (each `Math.random()` call reads the next
stream element).  The Matter engine itself (body integration, contact
solving) is the external collaborator; collision events are modelled
separately by `collisionStep`. -/
structure SimState where
  player : EntityState
  enemy : EntityState
  pu : PowerUpSysState := {}
  hasLaunched : Bool := false
  gameOver : Bool := false
  winner : Option Side := none
  rngIdx : ℕ := 0
  deriving DecidableEq, Repr

/-- `Math.floor(Math.random() * list.length)` as a list index. -/
def randIndex (r : ℚ) (len : ℕ) : ℕ := (⌊r * (len : ℚ)⌋).toNat

/-- `resolveChoicesAndReveal` (main.ts:1449-1483): enter the reveal phase
and fill in any missing choice with a uniformly random card from
`currentPowerups` (UI badge updates are not state). -/
def resolveChoicesAndReveal (rng : ℕ → ℚ) (s : SimState) : SimState :=
  let cur := s.pu.currentPowerups
  let pc := match s.pu.playerChoice with
    | some c => (some c, s.rngIdx)
    | none =>
        let idx := randIndex (rng s.rngIdx) cur.length
        (some (cur.getD idx .atk_boost, idx), s.rngIdx + 1)
  let ec := match s.pu.enemyChoice with
    | some c => (some c, pc.2)
    | none =>
        let idx := randIndex (rng pc.2) cur.length
        (some (cur.getD idx .atk_boost, idx), pc.2 + 1)
  { s with
    pu := { s.pu with isRevealing := true, playerChoice := pc.1, enemyChoice := ec.1 }
    rngIdx := ec.2 }

/-- `finishPowerUpCycle` (main.ts:1485-1508): deactivate the cycle, apply
the player's and the enemy's chosen power-ups to their live stats, and
remove them from the pool (the enemy's only when it differs from the
player's choice).  The `startPowerupTimer` rescheduling is a browser
timer, outside the animate callback. -/
def finishPowerUpCycle (s : SimState) : SimState :=
  let base := { s with pu := { s.pu with isActive := false, isRevealing := false } }
  let afterPlayer : EntityState × List PowerUpId :=
    match base.pu.playerChoice with
    | some c => (applyPowerUpE c.1 base.player, base.pu.pool.erase c.1)
    | none => (base.player, base.pu.pool)
  let afterEnemy : EntityState × List PowerUpId :=
    match base.pu.enemyChoice with
    | some c =>
        let removeIt := match base.pu.playerChoice with
          | none => true
          | some pc => decide (pc.1 ≠ c.1)
        (applyPowerUpE c.1 base.enemy,
         if removeIt then (afterPlayer.2).erase c.1 else afterPlayer.2)
    | none => (base.enemy, afterPlayer.2)
  { base with
    player := afterPlayer.1
    enemy := afterEnemy.1
    pu := { base.pu with isActive := false, isRevealing := false, pool := afterEnemy.2 } }

/-- `updatePowerUpLogic(dt)` (main.ts:1426-1447): advance the selection or
reveal timer by the wall-clock frame delta `dt` (milliseconds) and fire the
phase transition when its duration is reached. -/
def updatePowerUpLogic (dt : ℚ) (rng : ℕ → ℚ) (s : SimState) : SimState :=
  if s.pu.isActive = false then s
  else if s.pu.isRevealing = false then
    let el := s.pu.elapsedTime + dt
    let s₁ := { s with pu := { s.pu with elapsedTime := el } }
    if el ≥ POWERUP_DURATION then resolveChoicesAndReveal rng s₁ else s₁
  else
    let rt := s.pu.revealTime + dt
    let s₁ := { s with pu := { s.pu with revealTime := rt } }
    if rt ≥ REVEAL_DURATION then finishPowerUpCycle s₁ else s₁

/-- The `entities.forEach` pass of the animate callback
(main.ts:1748-1895) over both entities, in `entities` order (player first,
main.ts:816-817): the enemy's evaluation sees the flags the player's
evaluation produced. -/
def framePass (hasLaunched : Bool) (p e : EntityState) (gameOver : Bool)
    (winner : Option Side) (rng : ℕ → ℚ) (i : ℕ) :
    EntityState × EntityState × Bool × Option Side × ℕ :=
  let rp := frameEntityStep .player hasLaunched p gameOver winner rng i
  let re := frameEntityStep .enemy hasLaunched e rp.2.1 rp.2.2.1 rng rp.2.2.2
  (rp.1, re.1, re.2.1, re.2.2.1, re.2.2.2)

/-- One call of the animate callback (main.ts:1697-1970) restricted to the
simulation state: `updatePowerUpLogic(deltaTime)` with the wall-clock frame
delta, then the per-entity death/decay pass.  The `SUBSTEPS` calls of
`Engine.update` with the fixed `subStepDelta`, and the dish/curl force
application, act on the external Matter body state and are not part of the
stat fields carried here. -/
def animateFrame (dt : ℚ) (rng : ℕ → ℚ) (s : SimState) : SimState :=
  let s₁ := updatePowerUpLogic dt rng s
  let t := framePass s₁.hasLaunched s₁.player s₁.enemy s₁.gameOver s₁.winner rng s₁.rngIdx
  { s₁ with
    player := t.1
    enemy := t.2.1
    gameOver := t.2.2.1
    winner := t.2.2.2.1
    rngIdx := t.2.2.2.2 }

/-- `n` animate frames; frame `k` sees the wall-clock delta `dts k`. -/
def runFrames (dts rng : ℕ → ℚ) (s : SimState) : ℕ → SimState
  | 0 => s
  | n + 1 => animateFrame (dts n) rng (runFrames dts rng s n)

/-- The state `resetMatch` (main.ts:2122-2179) reads and writes: both
entities, the mutable globals `PLAYER_STATS` / `ENEMY_STATS` (updated by
`Object.assign` on reset), the match-start snapshots taken at launch
(main.ts:2019-2021), and the match flags. -/
structure MatchResetState where
  player : EntityState
  enemy : EntityState
  playerStatsGlobal : BeybladeStats
  enemyStatsGlobal : BeybladeStats
  matchStartPlayerStats : Option BeybladeStats := none
  matchStartEnemyStats : Option BeybladeStats := none
  hasLaunched : Bool := false
  gameOver : Bool := false
  deriving DecidableEq, Repr

/-- `resetEntityVisualsAndPhysics` (main.ts:2071-2120) restricted to
physics/game state: position to the spawn slot, velocity / angular velocity
/ angle / force / torque zeroed, live stats rebound, `isDead := false`,
`currentRpm := 0`, drift vectors cleared.  (Mesh rebuild and trail color are
rendering; `setDensity` mirrors `stats.densityBase * stats.wt` onto the
body.) -/
def resetEntityVisualsAndPhysics (e : EntityState) (stats : BeybladeStats)
    (sx sy : ℚ) : EntityState :=
  { e with
    px := sx
    py := sy
    vx := 0
    vy := 0
    angVel := 0
    angle := 0
    forceX := 0
    forceY := 0
    torque := 0
    stats := stats
    isDead := false
    currentRpm := some 0
    driftVelocity := none
    driftRotation := none }

/-- `resetMatch(keepPowerups)` (main.ts:2122-2179): clear the launch and
game-over flags; with `keepPowerups` the accumulated live stats become the
new globals and are kept, otherwise the match-start snapshots (or, lacking
them, the globals) are restored; both entities are reset to their spawn
slots `(0, 100)` and `(0, -100)` and their bodies are re-added to the world
(idempotent remove-then-add).  Power-up pool re-shuffling, spark cleanup and
`localStorage` are outside this state. -/
def resetMatch (keepPowerups : Bool) (s : MatchResetState) : MatchResetState :=
  let s₁ := { s with hasLaunched := false, gameOver := false }
  let s₂ :=
    if keepPowerups then
      { s₁ with
        playerStatsGlobal := s₁.player.stats
        enemyStatsGlobal := s₁.enemy.stats
        player := resetEntityVisualsAndPhysics s₁.player s₁.player.stats 0 100
        enemy := resetEntityVisualsAndPhysics s₁.enemy s₁.enemy.stats 0 (-100) }
    else
      match s₁.matchStartPlayerStats, s₁.matchStartEnemyStats with
      | some mp, some me =>
          { s₁ with
            playerStatsGlobal := mp
            enemyStatsGlobal := me
            player := resetEntityVisualsAndPhysics s₁.player mp 0 100
            enemy := resetEntityVisualsAndPhysics s₁.enemy me 0 (-100) }
      | _, _ =>
          { s₁ with
            player := resetEntityVisualsAndPhysics s₁.player s₁.playerStatsGlobal 0 100
            enemy := resetEntityVisualsAndPhysics s₁.enemy s₁.enemyStatsGlobal 0 (-100) }
  { s₂ with
    player := { s₂.player with inWorld := true }
    enemy := { s₂.enemy with inWorld := true } }

/-! ### Helper states for concrete instances -/

/-- Player-preset stats with the combat fields of interest overridden. -/
def exStats (atk defense crt : ℚ) : BeybladeStats :=
  { PLAYER_STATS with atk := atk, defense := defense, crt := crt }

/-- An entity at the origin with the given stats and spin-health. -/
def exEntity (st : BeybladeStats) (rpm : ℚ) : EntityState :=
  { stats := st, currentRpm := some rpm }

/-- The spin-health of an optional collision participant. -/
def rpmOf : Option EntityState → Option ℚ
  | some e => e.currentRpm
  | none => none

/-- The C2 invariant, stated on one entity: whenever `currentRpm` is
defined it lies in `[0, stats.maxRpm]`. -/
def spinInv (e : EntityState) : Prop :=
  ∀ r, e.currentRpm = some r → 0 ≤ r ∧ r ≤ e.stats.maxRpm

/-- A concrete dead entity. -/
def deadEntity : EntityState := { exEntity PLAYER_STATS 0 with isDead := true }

/-- A concrete state in which the player is about to die with spin 0 while
the enemy is alive at distance 100 with spin 500. -/
def dyingState : SimState :=
  { player := exEntity PLAYER_STATS 0
    enemy := { exEntity ENEMY_STATS 500 with px := 0, py := -100 }
    hasLaunched := true }

/-- A concrete state in which the enemy is about to die with spin 0 while
the player is alive at distance 100 with spin 500. -/
def dyingEnemyState : SimState :=
  { player := { exEntity PLAYER_STATS 500 with px := 0, py := 100 }
    enemy := exEntity ENEMY_STATS 0
    hasLaunched := true }

/-- Player preset with `staminaDecay = 10`, for the determinism analysis. -/
def staTenPlayer : BeybladeStats := { PLAYER_STATS with sta := 10 }

/-- Enemy preset with `staminaDecay = 10`, for the determinism analysis. -/
def staTenEnemy : BeybladeStats := { ENEMY_STATS with sta := 10 }

/-- A mid-match state in the power-up reveal phase with `DECAY -5%`
(`sta_drain`) locked in for both sides: the reveal timer is at 0, so
whether `finishPowerUpCycle` fires this frame — and hence which
`staminaDecay` the same frame's decay uses — depends only on the
wall-clock frame delta. -/
def puRevealState : SimState :=
  { player := { stats := staTenPlayer, currentRpm := some 1000, px := 0, py := 100 }
    enemy := { stats := staTenEnemy, currentRpm := some 1000, px := 0, py := -100 }
    pu := { isActive := true
            isRevealing := true
            revealTime := 0
            elapsedTime := 5000
            playerChoice := some (PowerUpId.sta_drain, 0)
            enemyChoice := some (PowerUpId.sta_drain, 0)
            currentPowerups := [PowerUpId.sta_drain, PowerUpId.sta_drain, PowerUpId.sta_drain]
            pool := [] }
    hasLaunched := true }

/-- A pre-launch state with the power-up subsystem inactive. -/
def idleSimState : SimState :=
  { player := exEntity PLAYER_STATS 0, enemy := exEntity ENEMY_STATS 0 }

/-! ### Helper lemmas -/

/-- The decay per rendered frame is `sta / 60`: `SUBSTEPS` substeps of
`subStepDelta` milliseconds make `1/60` of a simulated second. -/
theorem decayPerFrame_eq (sta : ℚ) : decayPerFrame sta = sta / 60 := by
  unfold decayPerFrame subStepDelta SUBSTEPS
  norm_num
  ring

theorem decayPerFrame_nonneg (sta : ℚ) (h : 0 ≤ sta) : 0 ≤ decayPerFrame sta := by
  rw [decayPerFrame_eq]
  positivity

/-- Closed form of `n` frames of undisturbed stamina decay while the spin
stays positive. -/
theorem frameDecay_iterate (sta : ℚ) (hsta : 0 ≤ sta) :
    ∀ (n : ℕ) (r : ℚ), (n : ℚ) * decayPerFrame sta < r →
      (frameDecay sta)^[n] r = r - (n : ℚ) * decayPerFrame sta := by
  intro n
  induction n with
  | zero => intro r _; simp
  | succ n ih =>
      intro r h
      have hd : 0 ≤ decayPerFrame sta := decayPerFrame_nonneg sta hsta
      have hnn : (0 : ℚ) ≤ (n : ℚ) * decayPerFrame sta := by positivity
      have hcast : ((n + 1 : ℕ) : ℚ) = (n : ℚ) + 1 := by push_cast; ring
      have hlt : (n : ℚ) * decayPerFrame sta < r - decayPerFrame sta := by
        rw [hcast] at h; linarith
      have hr : 0 < r := by linarith
      have hstep : frameDecay sta r = r - decayPerFrame sta := by
        unfold frameDecay
        rw [if_pos hr, max_eq_right]
        linarith
      rw [Function.iterate_succ_apply, hstep, ih _ hlt, hcast]
      ring

theorem applyPowerUp_maxRpm (p : PowerUpId) (st : BeybladeStats) :
    (applyPowerUp p st).maxRpm = st.maxRpm := by
  cases p <;> rfl

theorem decayAngvel_isDead (e : EntityState) : (decayAngvel e).isDead = e.isDead := by
  unfold decayAngvel
  cases e.currentRpm <;> rfl

theorem decayAngvel_stats (e : EntityState) : (decayAngvel e).stats = e.stats := by
  unfold decayAngvel
  cases e.currentRpm <;> rfl

theorem decayAngvel_none (e : EntityState) (hc : e.currentRpm = none) :
    decayAngvel e = e := by
  unfold decayAngvel
  rw [hc]

theorem decayAngvel_currentRpm (e : EntityState) (r₀ : ℚ)
    (hc : e.currentRpm = some r₀) :
    (decayAngvel e).currentRpm = some (frameDecay e.stats.sta r₀) := by
  unfold decayAngvel
  rw [hc]

theorem deathTransition_fields (e : EntityState) (rng : ℕ → ℚ) (i : ℕ) :
    (deathTransition e rng i).1.isDead = true
    ∧ (deathTransition e rng i).1.currentRpm = some 0
    ∧ (deathTransition e rng i).1.stats = e.stats
    ∧ (deathTransition e rng i).1.inWorld = false :=
  ⟨rfl, rfl, rfl, rfl⟩

/-- The death check either leaves the entity unchanged or replaces it by
its death transition. -/
theorem deathEval_cases (side : Side) (launched : Bool) (e : EntityState)
    (go : Bool) (w : Option Side) (rng : ℕ → ℚ) (i : ℕ) :
    (deathEval side launched e go w rng i).1 = e
    ∨ (deathEval side launched e go w rng i).1 = (deathTransition e rng i).1 := by
  unfold deathEval
  cases hc : e.currentRpm with
  | none => left; rfl
  | some r =>
      by_cases hcond : r ≤ 0 ∨ e.px ^ 2 + e.py ^ 2 > RING_OUT_RADIUS ^ 2 <;>
        split_ifs <;> simp [hcond]

/-- A dead entity passes through the death check untouched (the
`!entity.isDead` guard). -/
theorem deathEval_dead (side : Side) (launched : Bool) (e : EntityState)
    (go : Bool) (w : Option Side) (rng : ℕ → ℚ) (i : ℕ) (hd : e.isDead = true) :
    deathEval side launched e go w rng i = (e, go, w, i) := by
  unfold deathEval
  cases hc : e.currentRpm <;> simp [hd]

/-- An alive, launched entity meeting the death condition while the match
is not yet over: it dies, the match becomes game-over and the other side is
recorded as winner. -/
theorem deathEval_dies (side : Side) (e : EntityState) (w : Option Side)
    (rng : ℕ → ℚ) (i : ℕ) (r : ℚ) (hd : e.isDead = false)
    (hr : e.currentRpm = some r)
    (hc : r ≤ 0 ∨ e.px ^ 2 + e.py ^ 2 > RING_OUT_RADIUS ^ 2) :
    deathEval side true e false w rng i
      = ((deathTransition e rng i).1, true, some side.other,
          (deathTransition e rng i).2) := by
  unfold deathEval
  simp [hr, hd, hc]

/-- An alive entity that does not meet the death condition is unchanged by
the death check. -/
theorem deathEval_survives (side : Side) (launched : Bool) (e : EntityState)
    (go : Bool) (w : Option Side) (rng : ℕ → ℚ) (i : ℕ) (r : ℚ)
    (hd : e.isDead = false) (hr : e.currentRpm = some r)
    (hc : ¬(r ≤ 0 ∨ e.px ^ 2 + e.py ^ 2 > RING_OUT_RADIUS ^ 2)) :
    deathEval side launched e go w rng i = (e, go, w, i) := by
  unfold deathEval
  cases launched <;> simp [hr, hd, hc]

/-- A dead entity is untouched by its whole per-frame pass (death check
skipped, stats logic skipped by the early `return`). -/
theorem frameEntityStep_dead (side : Side) (launched : Bool) (e : EntityState)
    (go : Bool) (w : Option Side) (rng : ℕ → ℚ) (i : ℕ) (hd : e.isDead = true) :
    frameEntityStep side launched e go w rng i = (e, go, w, i) := by
  unfold frameEntityStep
  rw [deathEval_dead side launched e go w rng i hd]
  simp [hd]

/-- `updatePowerUpLogic` touches only the power-up state, the random
cursor, and (through a chosen power-up) the entities' live stats: every
combat-state field — `isDead`, `currentRpm`, position, `inWorld`, the match
flags and winner — is preserved. -/
theorem updatePowerUpLogic_combatState (dt : ℚ) (rng : ℕ → ℚ) (s : SimState) :
    ((updatePowerUpLogic dt rng s).player.isDead = s.player.isDead)
    ∧ ((updatePowerUpLogic dt rng s).player.currentRpm = s.player.currentRpm)
    ∧ ((updatePowerUpLogic dt rng s).player.px = s.player.px)
    ∧ ((updatePowerUpLogic dt rng s).player.py = s.player.py)
    ∧ ((updatePowerUpLogic dt rng s).player.inWorld = s.player.inWorld)
    ∧ ((updatePowerUpLogic dt rng s).enemy.isDead = s.enemy.isDead)
    ∧ ((updatePowerUpLogic dt rng s).enemy.currentRpm = s.enemy.currentRpm)
    ∧ ((updatePowerUpLogic dt rng s).enemy.px = s.enemy.px)
    ∧ ((updatePowerUpLogic dt rng s).enemy.py = s.enemy.py)
    ∧ ((updatePowerUpLogic dt rng s).enemy.inWorld = s.enemy.inWorld)
    ∧ ((updatePowerUpLogic dt rng s).hasLaunched = s.hasLaunched)
    ∧ ((updatePowerUpLogic dt rng s).gameOver = s.gameOver)
    ∧ ((updatePowerUpLogic dt rng s).winner = s.winner) := by
  rcases hp : s.pu.playerChoice with _ | cp <;>
    rcases he : s.pu.enemyChoice with _ | ce <;>
      simp [updatePowerUpLogic, resolveChoicesAndReveal, finishPowerUpCycle,
        applyPowerUpE, hp, he] <;>
      split_ifs <;> simp [applyPowerUpE]

/-! ### Claim theorems -/

/-- C1: on a collision between two tracked entities with stats, each
direction's raw damage is the attacker's critical damage value (`atk * 2`)
on a critical roll and `atk` otherwise; the defender loses
`max 0 (rawDamage - defense)` spin-health, clamped at zero, and the net
damage is never negative.  Concretely: attack 90 non-critical against
defense 50 costs the defender exactly 40 (1000 to 960); against defense 120
it costs 0; a critical hit worth 180 against defense 50 costs exactly 130
(1000 to 870). -/
theorem collision_damage_law :
    (∀ (ea eb : EntityState) (hs : Bool) (randA randB rA rB : ℚ),
      ea.currentRpm = some rA → eb.currentRpm = some rB →
      rpmOf (collisionStep (some ea) (some eb) hs randA randB).2.1
          = some (max 0 (rB - max 0
              ((if randA < ea.stats.crt then ea.stats.atk * 2 else ea.stats.atk)
                - eb.stats.defense)))
      ∧ rpmOf (collisionStep (some ea) (some eb) hs randA randB).1
          = some (max 0 (rA - max 0
              ((if randB < eb.stats.crt then eb.stats.atk * 2 else eb.stats.atk)
                - ea.stats.defense)))
      ∧ 0 ≤ max 0
          ((if randA < ea.stats.crt then ea.stats.atk * 2 else ea.stats.atk)
            - eb.stats.defense))
    ∧ rpmOf (collisionStep (some (exEntity (exStats 90 0 0) 1000))
        (some (exEntity (exStats 0 50 0) 1000)) true (1/2) (1/2)).2.1 = some 960
    ∧ rpmOf (collisionStep (some (exEntity (exStats 90 0 0) 1000))
        (some (exEntity (exStats 0 120 0) 1000)) true (1/2) (1/2)).2.1 = some 1000
    ∧ rpmOf (collisionStep (some (exEntity (exStats 90 0 1) 1000))
        (some (exEntity (exStats 0 50 0) 1000)) true (1/2) (1/2)).2.1 = some 870 := by
  refine ⟨?_,
    by norm_num [collisionStep, rpmOf, applyDamage, exEntity, exStats, PLAYER_STATS, max_def],
    by norm_num [collisionStep, rpmOf, applyDamage, exEntity, exStats, PLAYER_STATS, max_def],
    by norm_num [collisionStep, rpmOf, applyDamage, exEntity, exStats, PLAYER_STATS, max_def]⟩
  intro ea eb hs randA randB rA rB hA hB
  refine ⟨?_, ?_, le_max_left 0 _⟩ <;>
    simp [collisionStep, rpmOf, applyDamage, hA, hB]

/-- C1 witness: the general damage law applied at a concrete collision. -/
theorem collision_damage_law_witness :
    rpmOf (collisionStep (some (exEntity (exStats 90 0 0) 1000))
        (some (exEntity (exStats 7 50 0) 500)) true 0 0).2.1
      = some (max 0 (500 - max 0
          ((if (0:ℚ) < (exEntity (exStats 90 0 0) 1000).stats.crt
              then (exEntity (exStats 90 0 0) 1000).stats.atk * 2
              else (exEntity (exStats 90 0 0) 1000).stats.atk)
            - (exEntity (exStats 7 50 0) 500).stats.defense))) :=
  (collision_damage_law.1 _ _ true 0 0 1000 500 rfl rfl).1

/-- C3: the per-frame stamina decay is `staminaDecay` times the total
simulated substep time of the frame — `(subStepDelta / 1000) * SUBSTEPS`
seconds, i.e. exactly `1/60` s — computed from the fixed substep constants
and not from the wall-clock frame delta (`decayAngvel` takes no `dt`); a
positive spin decreases by exactly that amount (clamped at 0); and an
entity with `staminaDecay = 10` and no collisions goes from 1000 to exactly
980 over 120 frames = 2.0 simulated seconds. -/
theorem stamina_decay_law :
    ((subStepDelta / 1000) * (SUBSTEPS : ℚ) = 1 / 60)
    ∧ (∀ sta r : ℚ, 0 < r →
        frameDecay sta r
          = max 0 (r - sta * ((subStepDelta / 1000) * (SUBSTEPS : ℚ))))
    ∧ (∀ (e : EntityState) (r : ℚ), e.currentRpm = some r →
        (decayAngvel e).currentRpm = some (frameDecay e.stats.sta r))
    ∧ (frameDecay 10)^[120] 1000 = 980 := by
  refine ⟨by unfold subStepDelta SUBSTEPS; norm_num, ?_, ?_, ?_⟩
  · intro sta r hr
    unfold frameDecay
    rw [if_pos hr]
    congr 1
    unfold decayPerFrame
    ring
  · intro e r h
    unfold decayAngvel
    rw [h]
  · have h := frameDecay_iterate 10 (by norm_num) 120 1000 ?_
    · rw [h, decayPerFrame_eq]
      norm_num
    · rw [decayPerFrame_eq]
      norm_num

/-- C3 witness: the decay law applied at a concrete positive spin value. -/
theorem stamina_decay_law_witness :
    (0:ℚ) < 7 ∧ frameDecay 3 7
      = max 0 (7 - 3 * ((subStepDelta / 1000) * (SUBSTEPS : ℚ))) :=
  ⟨by norm_num, stamina_decay_law.2.1 3 7 (by norm_num)⟩

/-- C6: with the entity exactly at the arena center (`dist = 0`, which is
`Math.sqrt(0)` exactly), the commented-out `dist == 0` guard
(main.ts:1721) means the radial direction is computed as `0/0` — NaN, not
a number — so the per-substep arena force is undefined rather than the
zero vector: the claim's "zero net arena force / skipped application" does
not hold on the code. -/
theorem arena_force_at_center_undefined :
    ∀ (st : BeybladeStats) (mass : ℚ),
      entityForce st mass 0 0 0 = none
      ∧ entityForce st mass 0 0 0 ≠ some (0, 0) := by
  intro st mass
  constructor <;> simp [entityForce, jsDiv]

/-- C10: a collision pair in which at most one participant is a tracked
entity (the other an untracked body such as a wall segment) leaves every
participant's state — `currentRpm` included — unchanged, and emits only the
cosmetic wall-hit effect: 5 gray sparks at speed 2 and a
`playCollisionSound(0.1, false)` cue; no barrier damage is applied. -/
theorem wall_hit_cosmetic_only :
    ∀ (e : EntityState) (hs : Bool) (r1 r2 : ℚ),
      collisionStep (some e) none hs r1 r2 = (some e, none, wallHitEffect hs)
      ∧ collisionStep none (some e) hs r1 r2 = (none, some e, wallHitEffect hs)
      ∧ collisionStep none none hs r1 r2 = (none, none, wallHitEffect hs)
      ∧ (wallHitEffect hs).soundVolume = 1 / 10
      ∧ (wallHitEffect hs).soundIsCrit = false
      ∧ (wallHitEffect hs).sparkColor = 0xaaaaaa := by
  intro e hs r1 r2
  exact ⟨rfl, rfl, rfl, rfl, rfl, rfl⟩

theorem applyDamage_bounds (rpm : Option ℚ) (dmg M : ℚ) (hd : 0 ≤ dmg)
    (hM : 0 ≤ M) (h : ∀ r, rpm = some r → 0 ≤ r ∧ r ≤ M) :
    ∀ r, applyDamage rpm dmg = some r → 0 ≤ r ∧ r ≤ M := by
  intro r hr
  cases hc : rpm with
  | none => rw [hc] at hr; simp [applyDamage] at hr
  | some r₀ =>
      rw [hc] at hr
      simp only [applyDamage, Option.some.injEq] at hr
      obtain ⟨h0, h1⟩ := h r₀ hc
      subst hr
      exact ⟨le_max_left 0 _, max_le hM (by linarith)⟩

/-- C2: for an entity with nonnegative `maxSpin` and `staminaDecay`
satisfying `0 ≤ currentSpin ≤ maxSpin`, every operation of the simulation
preserves the bounds: collision damage (in either defender role) and
stamina decay clamp the spin at 0 from below and never increase it, the
death transition sets it to exactly 0, launch initializes it to exactly
`maxSpin`, and power-up application leaves both the spin and `maxSpin`
untouched. -/
theorem spin_bounds_invariant (e : EntityState) (hmax : 0 ≤ e.stats.maxRpm)
    (hsta : 0 ≤ e.stats.sta) (hinv : spinInv e) :
    (∀ (other : EntityState) (hs : Bool) (randA randB : ℚ) (x : EntityState),
        (collisionStep (some other) (some e) hs randA randB).2.1 = some x → spinInv x)
    ∧ (∀ (other : EntityState) (hs : Bool) (randA randB : ℚ) (x : EntityState),
        (collisionStep (some e) (some other) hs randA randB).1 = some x → spinInv x)
    ∧ spinInv (decayAngvel e)
    ∧ (∀ (side : Side) (launched go : Bool) (w : Option Side) (rng : ℕ → ℚ) (i : ℕ),
        spinInv (deathEval side launched e go w rng i).1)
    ∧ (∀ dirX dirY : ℚ, (launchEntity dirX dirY e).currentRpm = some e.stats.maxRpm
        ∧ spinInv (launchEntity dirX dirY e))
    ∧ (∀ p : PowerUpId, spinInv (applyPowerUpE p e)) := by
  refine ⟨?_, ?_, ?_, ?_, ?_, ?_⟩
  · intro other hs randA randB x hx
    simp only [collisionStep, Option.some.injEq] at hx
    subst hx
    intro r hr
    exact applyDamage_bounds e.currentRpm _ e.stats.maxRpm (le_max_left 0 _) hmax hinv r hr
  · intro other hs randA randB x hx
    simp only [collisionStep, Option.some.injEq] at hx
    subst hx
    intro r hr
    exact applyDamage_bounds e.currentRpm _ e.stats.maxRpm (le_max_left 0 _) hmax hinv r hr
  · intro r' hr'
    rw [decayAngvel_stats]
    cases hc : e.currentRpm with
    | none =>
        rw [decayAngvel_none e hc] at hr'
        exact hinv r' hr'
    | some r₀ =>
        rw [decayAngvel_currentRpm e r₀ hc] at hr'
        simp only [Option.some.injEq] at hr'
        subst hr'
        obtain ⟨h0, h1⟩ := hinv r₀ hc
        unfold frameDecay
        have hdf : 0 ≤ decayPerFrame e.stats.sta := decayPerFrame_nonneg _ hsta
        split_ifs with hpos
        · exact ⟨le_max_left 0 _, max_le hmax (by linarith)⟩
        · exact ⟨h0, h1⟩
  · intro side launched go w rng i
    rcases deathEval_cases side launched e go w rng i with h | h <;> rw [h]
    · exact hinv
    · intro r hr
      rw [(deathTransition_fields e rng i).2.1] at hr
      simp only [Option.some.injEq] at hr
      subst hr
      rw [(deathTransition_fields e rng i).2.2.1]
      exact ⟨le_refl 0, hmax⟩
  · intro dirX dirY
    refine ⟨rfl, ?_⟩
    intro r hr
    simp only [launchEntity, Option.some.injEq] at hr
    subst hr
    exact ⟨hmax, le_refl _⟩
  · intro p
    intro r hr
    obtain ⟨h0, h1⟩ := hinv r hr
    refine ⟨h0, ?_⟩
    show r ≤ (applyPowerUp p e.stats).maxRpm
    rw [applyPowerUp_maxRpm]
    exact h1

/-- C2 witness: the invariant-preservation theorem applied to a concrete
in-bounds entity. -/
theorem spin_bounds_invariant_witness :
    (0 ≤ (exEntity PLAYER_STATS 500).stats.maxRpm
      ∧ 0 ≤ (exEntity PLAYER_STATS 500).stats.sta
      ∧ spinInv (exEntity PLAYER_STATS 500))
    ∧ spinInv (decayAngvel (exEntity PLAYER_STATS 500)) := by
  have hmax : 0 ≤ (exEntity PLAYER_STATS 500).stats.maxRpm := by
    norm_num [exEntity, PLAYER_STATS]
  have hsta : 0 ≤ (exEntity PLAYER_STATS 500).stats.sta := by
    norm_num [exEntity, PLAYER_STATS]
  have hinv : spinInv (exEntity PLAYER_STATS 500) := by
    intro r hr
    simp only [exEntity, Option.some.injEq] at hr
    subst hr
    norm_num [exEntity, PLAYER_STATS]
  exact ⟨⟨hmax, hsta, hinv⟩,
    (spin_bounds_invariant (exEntity PLAYER_STATS 500) hmax hsta hinv).2.2.1⟩

/-- C4: after launch, a not-yet-dead entity with defined spin is marked
dead by its per-frame evaluation exactly when `currentSpin ≤ 0` or its
planar distance from the arena center exceeds `RING_OUT_RADIUS = 350`
(arena radius 300); the squared-distance test used in the embedding is
equivalent to the source's `Math.sqrt(x² + z²) > 350`.  In particular an
entity at distance 360 with spin 500 is marked dead. -/
theorem death_check_law :
    (∀ (side : Side) (e : EntityState) (go : Bool) (w : Option Side)
        (rng : ℕ → ℚ) (i : ℕ) (r : ℚ), e.isDead = false → e.currentRpm = some r →
        ((deathEval side true e go w rng i).1.isDead = true
          ↔ (r ≤ 0 ∨ e.px ^ 2 + e.py ^ 2 > RING_OUT_RADIUS ^ 2)))
    ∧ (∀ x y : ℚ, ((RING_OUT_RADIUS : ℝ) < Real.sqrt ((x : ℝ) ^ 2 + (y : ℝ) ^ 2))
        ↔ x ^ 2 + y ^ 2 > RING_OUT_RADIUS ^ 2)
    ∧ RING_OUT_RADIUS = 350 ∧ ARENA_RADIUS = 300 := by
  refine ⟨?_, ?_, rfl, rfl⟩
  · intro side e go w rng i r hd hr
    unfold deathEval
    simp only [hr, hd]
    by_cases hc : r ≤ 0 ∨ e.px ^ 2 + e.py ^ 2 > RING_OUT_RADIUS ^ 2
    · cases go <;> simp [hc, (deathTransition_fields e rng i).1]
    · simp [hc, hd]
  · intro x y
    rw [Real.lt_sqrt (by norm_num [RING_OUT_RADIUS])]
    constructor <;> intro h
    · exact_mod_cast h
    · exact_mod_cast h

/-- C4 witness: the death law applied to an entity at planar distance 360
from the center with spin 500: it is marked dead on its next evaluation. -/
theorem death_check_law_witness :
    (0 : ℚ) < 500
    ∧ (deathEval .player true { exEntity PLAYER_STATS 500 with px := 360 }
        false none (fun _ => 0) 0).1.isDead = true := by
  refine ⟨by norm_num, ?_⟩
  rw [death_check_law.1 .player { exEntity PLAYER_STATS 500 with px := 360 }
    false none (fun _ => 0) 0 500 rfl rfl]
  right
  norm_num [exEntity, RING_OUT_RADIUS]

/-- C7: once an entity's `isDead` is true it stays true under its per-frame
evaluation, under collision events (in either role), under power-up
application, and under whole animate frames (for either slot); only
`resetEntityVisualsAndPhysics` — reached only through `resetMatch` — sets
it back to false. -/
theorem isDead_monotone (e : EntityState) (hd : e.isDead = true) :
    (∀ (side : Side) (launched go : Bool) (w : Option Side) (rng : ℕ → ℚ) (i : ℕ),
        (frameEntityStep side launched e go w rng i).1.isDead = true)
    ∧ (∀ (other : EntityState) (hs : Bool) (r1 r2 : ℚ) (x : EntityState),
        (collisionStep (some e) (some other) hs r1 r2).1 = some x → x.isDead = true)
    ∧ (∀ (other : EntityState) (hs : Bool) (r1 r2 : ℚ) (x : EntityState),
        (collisionStep (some other) (some e) hs r1 r2).2.1 = some x → x.isDead = true)
    ∧ (∀ p : PowerUpId, (applyPowerUpE p e).isDead = true)
    ∧ (∀ (dt : ℚ) (rng : ℕ → ℚ) (s : SimState), s.player = e →
        (animateFrame dt rng s).player.isDead = true)
    ∧ (∀ (dt : ℚ) (rng : ℕ → ℚ) (s : SimState), s.enemy = e →
        (animateFrame dt rng s).enemy.isDead = true)
    ∧ (∀ (st : BeybladeStats) (sx sy : ℚ),
        (resetEntityVisualsAndPhysics e st sx sy).isDead = false) := by
  refine ⟨?_, ?_, ?_, ?_, ?_, ?_, ?_⟩
  · intro side launched go w rng i
    rw [frameEntityStep_dead side launched e go w rng i hd]
    exact hd
  · intro other hs r1 r2 x hx
    simp only [collisionStep, Option.some.injEq] at hx
    subst hx
    exact hd
  · intro other hs r1 r2 x hx
    simp only [collisionStep, Option.some.injEq] at hx
    subst hx
    exact hd
  · intro p
    exact hd
  · intro dt rng s hs
    have hp := (updatePowerUpLogic_combatState dt rng s).1
    set s₁ := updatePowerUpLogic dt rng s with hs₁
    have hd₁ : s₁.player.isDead = true := by rw [hp, hs, hd]
    show (frameEntityStep .player s₁.hasLaunched s₁.player s₁.gameOver s₁.winner
      rng s₁.rngIdx).1.isDead = true
    rw [frameEntityStep_dead _ _ _ _ _ _ _ hd₁]
    exact hd₁
  · intro dt rng s hs
    have hp := (updatePowerUpLogic_combatState dt rng s).2.2.2.2.2.1
    set s₁ := updatePowerUpLogic dt rng s with hs₁
    have hd₁ : s₁.enemy.isDead = true := by rw [hp, hs, hd]
    show (frameEntityStep .enemy s₁.hasLaunched s₁.enemy
      (frameEntityStep .player s₁.hasLaunched s₁.player s₁.gameOver s₁.winner
        rng s₁.rngIdx).2.1
      (frameEntityStep .player s₁.hasLaunched s₁.player s₁.gameOver s₁.winner
        rng s₁.rngIdx).2.2.1 rng
      (frameEntityStep .player s₁.hasLaunched s₁.player s₁.gameOver s₁.winner
        rng s₁.rngIdx).2.2.2).1.isDead = true
    rw [frameEntityStep_dead _ _ _ _ _ _ _ hd₁]
    exact hd₁
  · intro st sx sy
    rfl

/-- An alive launched entity meeting the death condition with the match not
yet over: its frame pass returns the death transition with game-over set and
the other side as winner (the freshly dead entity skips the stats logic). -/
theorem frameEntityStep_dies (side : Side) (e : EntityState) (w : Option Side)
    (rng : ℕ → ℚ) (i : ℕ) (r : ℚ) (hd : e.isDead = false)
    (hr : e.currentRpm = some r)
    (hc : r ≤ 0 ∨ e.px ^ 2 + e.py ^ 2 > RING_OUT_RADIUS ^ 2) :
    frameEntityStep side true e false w rng i
      = ((deathTransition e rng i).1, true, some side.other,
          (deathTransition e rng i).2) := by
  unfold frameEntityStep
  rw [deathEval_dies side e w rng i r hd hr hc]
  simp [(deathTransition_fields e rng i).1]

/-- An alive entity missing the death condition: its frame pass is just the
stamina-decay step, with the flags untouched. -/
theorem frameEntityStep_survives (side : Side) (launched : Bool)
    (e : EntityState) (go : Bool) (w : Option Side) (rng : ℕ → ℚ) (i : ℕ)
    (r : ℚ) (hd : e.isDead = false) (hr : e.currentRpm = some r)
    (hc : ¬(r ≤ 0 ∨ e.px ^ 2 + e.py ^ 2 > RING_OUT_RADIUS ^ 2)) :
    frameEntityStep side launched e go w rng i = (decayAngvel e, go, w, i) := by
  unfold frameEntityStep
  rw [deathEval_survives side launched e go w rng i r hd hr hc]
  simp [hd]

/-- The two-entity pass when the player dies and the enemy survives. -/
theorem framePass_playerDies (p e : EntityState) (w : Option Side)
    (rng : ℕ → ℚ) (i : ℕ) (rA rB : ℚ) (hAd : p.isDead = false)
    (hAr : p.currentRpm = some rA) (hBd : e.isDead = false)
    (hBr : e.currentRpm = some rB)
    (hdie : rA ≤ 0 ∨ p.px ^ 2 + p.py ^ 2 > RING_OUT_RADIUS ^ 2)
    (hlive : ¬(rB ≤ 0 ∨ e.px ^ 2 + e.py ^ 2 > RING_OUT_RADIUS ^ 2)) :
    framePass true p e false w rng i
      = ((deathTransition p rng i).1, decayAngvel e, true, some Side.enemy,
          (deathTransition p rng i).2) := by
  unfold framePass
  rw [frameEntityStep_dies Side.player p w rng i rA hAd hAr hdie]
  rw [show Side.player.other = Side.enemy from rfl]
  simp only [frameEntityStep_survives Side.enemy true e true (some Side.enemy) rng
    ((deathTransition p rng i).2) rB hBd hBr hlive]

/-- The two-entity pass when the player survives and the enemy dies: the
enemy's evaluation runs second and sees the flags the player's evaluation
left untouched, so the player (`P1 WINS`) is recorded as winner. -/
theorem framePass_enemyDies (p e : EntityState) (w : Option Side)
    (rng : ℕ → ℚ) (i : ℕ) (rA rB : ℚ) (hAd : p.isDead = false)
    (hAr : p.currentRpm = some rA) (hBd : e.isDead = false)
    (hBr : e.currentRpm = some rB)
    (hlive : ¬(rA ≤ 0 ∨ p.px ^ 2 + p.py ^ 2 > RING_OUT_RADIUS ^ 2))
    (hdie : rB ≤ 0 ∨ e.px ^ 2 + e.py ^ 2 > RING_OUT_RADIUS ^ 2) :
    framePass true p e false w rng i
      = (decayAngvel p, (deathTransition e rng i).1, true, some Side.player,
          (deathTransition e rng i).2) := by
  unfold framePass
  rw [frameEntityStep_survives Side.player true p false w rng i rA hAd hAr hlive]
  simp only [frameEntityStep_dies Side.enemy e w rng i rB hBd hBr hdie, Side.other]

/-- C5: when either entity dies (spin 0 or ring-out) in a frame where the
match is still running and the other entity stays alive, that same animate
frame sets `gameOver`, records the other entity as winner (`CPU WINS` when
the player died, `P1 WINS` when the enemy died), marks the dying entity
dead and removes its body from the physics world, while the other remains
alive.  The enemy case is not symmetry for free: its evaluation runs
second in the per-frame pass and sees the flags the player's evaluation
produced. -/
theorem win_on_death (s : SimState) (dt : ℚ) (rng : ℕ → ℚ) (rA rB : ℚ)
    (hL : s.hasLaunched = true) (hGO : s.gameOver = false)
    (hAd : s.player.isDead = false) (hBd : s.enemy.isDead = false)
    (hAr : s.player.currentRpm = some rA) (hBr : s.enemy.currentRpm = some rB) :
    ((rA ≤ 0 ∨ s.player.px ^ 2 + s.player.py ^ 2 > RING_OUT_RADIUS ^ 2) →
      ¬(rB ≤ 0 ∨ s.enemy.px ^ 2 + s.enemy.py ^ 2 > RING_OUT_RADIUS ^ 2) →
      (animateFrame dt rng s).gameOver = true
      ∧ (animateFrame dt rng s).winner = some Side.enemy
      ∧ (animateFrame dt rng s).player.isDead = true
      ∧ (animateFrame dt rng s).player.inWorld = false
      ∧ (animateFrame dt rng s).enemy.isDead = false)
    ∧ (¬(rA ≤ 0 ∨ s.player.px ^ 2 + s.player.py ^ 2 > RING_OUT_RADIUS ^ 2) →
      (rB ≤ 0 ∨ s.enemy.px ^ 2 + s.enemy.py ^ 2 > RING_OUT_RADIUS ^ 2) →
      (animateFrame dt rng s).gameOver = true
      ∧ (animateFrame dt rng s).winner = some Side.player
      ∧ (animateFrame dt rng s).enemy.isDead = true
      ∧ (animateFrame dt rng s).enemy.inWorld = false
      ∧ (animateFrame dt rng s).player.isDead = false) := by
  obtain ⟨pAd, pAr, pApx, pApy, _, pBd, pBr, pBpx, pBpy, _, pL, pGO, _⟩ :=
    updatePowerUpLogic_combatState dt rng s
  set s₁ := updatePowerUpLogic dt rng s with hs₁
  have hL' : s₁.hasLaunched = true := by rw [pL, hL]
  have hGO' : s₁.gameOver = false := by rw [pGO, hGO]
  constructor
  · intro hdie hlive
    have hdie' : rA ≤ 0 ∨ s₁.player.px ^ 2 + s₁.player.py ^ 2 > RING_OUT_RADIUS ^ 2 := by
      rw [pApx, pApy]; exact hdie
    have hlive' : ¬(rB ≤ 0 ∨ s₁.enemy.px ^ 2 + s₁.enemy.py ^ 2 > RING_OUT_RADIUS ^ 2) := by
      rw [pBpx, pBpy]; exact hlive
    have key : framePass s₁.hasLaunched s₁.player s₁.enemy s₁.gameOver s₁.winner
        rng s₁.rngIdx
        = ((deathTransition s₁.player rng s₁.rngIdx).1, decayAngvel s₁.enemy, true,
            some Side.enemy, (deathTransition s₁.player rng s₁.rngIdx).2) := by
      rw [hL', hGO']
      exact framePass_playerDies s₁.player s₁.enemy s₁.winner rng s₁.rngIdx rA rB
        (by rw [pAd]; exact hAd) (by rw [pAr]; exact hAr)
        (by rw [pBd]; exact hBd) (by rw [pBr]; exact hBr) hdie' hlive'
    refine ⟨?_, ?_, ?_, ?_, ?_⟩
    · show (framePass s₁.hasLaunched s₁.player s₁.enemy s₁.gameOver s₁.winner
        rng s₁.rngIdx).2.2.1 = true
      rw [key]
    · show (framePass s₁.hasLaunched s₁.player s₁.enemy s₁.gameOver s₁.winner
        rng s₁.rngIdx).2.2.2.1 = some Side.enemy
      rw [key]
    · show (framePass s₁.hasLaunched s₁.player s₁.enemy s₁.gameOver s₁.winner
        rng s₁.rngIdx).1.isDead = true
      rw [key]
      exact (deathTransition_fields s₁.player rng s₁.rngIdx).1
    · show (framePass s₁.hasLaunched s₁.player s₁.enemy s₁.gameOver s₁.winner
        rng s₁.rngIdx).1.inWorld = false
      rw [key]
      exact (deathTransition_fields s₁.player rng s₁.rngIdx).2.2.2
    · show (framePass s₁.hasLaunched s₁.player s₁.enemy s₁.gameOver s₁.winner
        rng s₁.rngIdx).2.1.isDead = false
      rw [key]
      show (decayAngvel s₁.enemy).isDead = false
      rw [decayAngvel_isDead, pBd]
      exact hBd
  · intro hlive hdie
    have hlive' : ¬(rA ≤ 0 ∨ s₁.player.px ^ 2 + s₁.player.py ^ 2 > RING_OUT_RADIUS ^ 2) := by
      rw [pApx, pApy]; exact hlive
    have hdie' : rB ≤ 0 ∨ s₁.enemy.px ^ 2 + s₁.enemy.py ^ 2 > RING_OUT_RADIUS ^ 2 := by
      rw [pBpx, pBpy]; exact hdie
    have key : framePass s₁.hasLaunched s₁.player s₁.enemy s₁.gameOver s₁.winner
        rng s₁.rngIdx
        = (decayAngvel s₁.player, (deathTransition s₁.enemy rng s₁.rngIdx).1, true,
            some Side.player, (deathTransition s₁.enemy rng s₁.rngIdx).2) := by
      rw [hL', hGO']
      exact framePass_enemyDies s₁.player s₁.enemy s₁.winner rng s₁.rngIdx rA rB
        (by rw [pAd]; exact hAd) (by rw [pAr]; exact hAr)
        (by rw [pBd]; exact hBd) (by rw [pBr]; exact hBr) hlive' hdie'
    refine ⟨?_, ?_, ?_, ?_, ?_⟩
    · show (framePass s₁.hasLaunched s₁.player s₁.enemy s₁.gameOver s₁.winner
        rng s₁.rngIdx).2.2.1 = true
      rw [key]
    · show (framePass s₁.hasLaunched s₁.player s₁.enemy s₁.gameOver s₁.winner
        rng s₁.rngIdx).2.2.2.1 = some Side.player
      rw [key]
    · show (framePass s₁.hasLaunched s₁.player s₁.enemy s₁.gameOver s₁.winner
        rng s₁.rngIdx).2.1.isDead = true
      rw [key]
      exact (deathTransition_fields s₁.enemy rng s₁.rngIdx).1
    · show (framePass s₁.hasLaunched s₁.player s₁.enemy s₁.gameOver s₁.winner
        rng s₁.rngIdx).2.1.inWorld = false
      rw [key]
      exact (deathTransition_fields s₁.enemy rng s₁.rngIdx).2.2.2
    · show (framePass s₁.hasLaunched s₁.player s₁.enemy s₁.gameOver s₁.winner
        rng s₁.rngIdx).1.isDead = false
      rw [key]
      show (decayAngvel s₁.player).isDead = false
      rw [decayAngvel_isDead, pAd]
      exact hAd

/-- C5 witness: the win-on-death theorem applied to `dyingState` (player
dies, enemy wins) and to `dyingEnemyState` (enemy dies, player wins). -/
theorem win_on_death_witness :
    ((animateFrame 16 (fun _ => 0) dyingState).gameOver = true
      ∧ (animateFrame 16 (fun _ => 0) dyingState).winner = some Side.enemy
      ∧ (animateFrame 16 (fun _ => 0) dyingState).player.inWorld = false)
    ∧ ((animateFrame 16 (fun _ => 0) dyingEnemyState).gameOver = true
      ∧ (animateFrame 16 (fun _ => 0) dyingEnemyState).winner = some Side.player
      ∧ (animateFrame 16 (fun _ => 0) dyingEnemyState).enemy.inWorld = false) := by
  have h₁ := (win_on_death dyingState 16 (fun _ => 0) 0 500
      rfl rfl rfl rfl rfl rfl).1
    (Or.inl (le_refl 0))
    (by norm_num [dyingState, exEntity, ENEMY_STATS, RING_OUT_RADIUS])
  have h₂ := (win_on_death dyingEnemyState 16 (fun _ => 0) 500 0
      rfl rfl rfl rfl rfl rfl).2
    (by norm_num [dyingEnemyState, exEntity, PLAYER_STATS, RING_OUT_RADIUS])
    (Or.inl (le_refl 0))
  exact ⟨⟨h₁.1, h₁.2.1, h₁.2.2.2.1⟩, ⟨h₂.1, h₂.2.1, h₂.2.2.2.1⟩⟩

/-- C7 witness: a concrete dead entity stays dead through its frame pass,
and is revived only by the reset. -/
theorem isDead_monotone_witness :
    deadEntity.isDead = true
    ∧ (frameEntityStep Side.player true deadEntity false none
        (fun _ => 0) 0).1.isDead = true
    ∧ (resetEntityVisualsAndPhysics deadEntity PLAYER_STATS 0 100).isDead = false :=
  ⟨rfl,
    (isDead_monotone deadEntity rfl).1 Side.player true false none (fun _ => 0) 0,
    (isDead_monotone deadEntity rfl).2.2.2.2.2.2 PLAYER_STATS 0 100⟩

/-- C9: `resetMatch` with a fixed `keepPowerups` flag is idempotent — a
second call with no frames in between reproduces the exact same state —
and the state it produces has each entity at its spawn slot (`(0, 100)`
and `(0, -100)`), zero velocity, angular velocity, angle, force and
torque, `currentSpin = 0`, `isDead = false`, drift vectors cleared, both
bodies in the physics world, and the launch/game-over flags cleared. -/
theorem resetMatch_idempotent :
    ∀ (s : MatchResetState) (keep : Bool),
      resetMatch keep (resetMatch keep s) = resetMatch keep s
      ∧ ((resetMatch keep s).player.px = 0 ∧ (resetMatch keep s).player.py = 100
        ∧ (resetMatch keep s).enemy.px = 0 ∧ (resetMatch keep s).enemy.py = -100
        ∧ (resetMatch keep s).player.vx = 0 ∧ (resetMatch keep s).player.vy = 0
        ∧ (resetMatch keep s).enemy.vx = 0 ∧ (resetMatch keep s).enemy.vy = 0
        ∧ (resetMatch keep s).player.angVel = 0 ∧ (resetMatch keep s).enemy.angVel = 0
        ∧ (resetMatch keep s).player.angle = 0 ∧ (resetMatch keep s).enemy.angle = 0
        ∧ (resetMatch keep s).player.forceX = 0 ∧ (resetMatch keep s).player.forceY = 0
        ∧ (resetMatch keep s).enemy.forceX = 0 ∧ (resetMatch keep s).enemy.forceY = 0
        ∧ (resetMatch keep s).player.torque = 0 ∧ (resetMatch keep s).enemy.torque = 0
        ∧ (resetMatch keep s).player.currentRpm = some 0
        ∧ (resetMatch keep s).enemy.currentRpm = some 0
        ∧ (resetMatch keep s).player.isDead = false
        ∧ (resetMatch keep s).enemy.isDead = false
        ∧ (resetMatch keep s).player.driftVelocity = none
        ∧ (resetMatch keep s).player.driftRotation = none
        ∧ (resetMatch keep s).enemy.driftVelocity = none
        ∧ (resetMatch keep s).enemy.driftRotation = none
        ∧ (resetMatch keep s).player.inWorld = true
        ∧ (resetMatch keep s).enemy.inWorld = true
        ∧ (resetMatch keep s).hasLaunched = false
        ∧ (resetMatch keep s).gameOver = false) := by
  intro s keep
  constructor
  · cases keep
    · rcases hp : s.matchStartPlayerStats with _ | mp <;>
        rcases he : s.matchStartEnemyStats with _ | me <;>
          simp [resetMatch, resetEntityVisualsAndPhysics, hp, he]
    · simp [resetMatch, resetEntityVisualsAndPhysics]
  · cases keep
    · rcases hp : s.matchStartPlayerStats with _ | mp <;>
        rcases he : s.matchStartEnemyStats with _ | me <;>
          simp [resetMatch, resetEntityVisualsAndPhysics, hp, he]
    · simp [resetMatch, resetEntityVisualsAndPhysics]

/-- C8 counterexample: with the random stream and every other input held
fixed, one frame from `puRevealState` under a wall-clock delta of 2000 ms
(the reveal duration elapses, `sta_drain` is applied before the decay) and
under a delta of 0 ms (it does not) leaves the player with different
`currentSpin` — `1000 - 9.5/60` versus `1000 - 10/60` — so the spin
trajectory is not a function of the seed and the launch angle alone. -/
theorem spin_trajectory_depends_on_frame_time :
    (runFrames (fun _ => 2000) (fun _ => 0) puRevealState 1).player.currentRpm
      ≠ (runFrames (fun _ => 0) (fun _ => 0) puRevealState 1).player.currentRpm := by
  norm_num [runFrames, animateFrame, updatePowerUpLogic, finishPowerUpCycle,
    resolveChoicesAndReveal, framePass, frameEntityStep, deathEval, deathTransition,
    decayAngvel, frameDecay, decayPerFrame, jsSign, applyPowerUpE, applyPowerUp,
    puRevealState, staTenPlayer, staTenEnemy, PLAYER_STATS, ENEMY_STATS,
    REVEAL_DURATION, POWERUP_DURATION, RING_OUT_RADIUS, subStepDelta, SUBSTEPS,
    max_def]

theorem updatePowerUpLogic_inactive (dt : ℚ) (rng : ℕ → ℚ) (s : SimState)
    (h : s.pu.isActive = false) : updatePowerUpLogic dt rng s = s := by
  simp [updatePowerUpLogic, h]

theorem animateFrame_pu (dt : ℚ) (rng : ℕ → ℚ) (s : SimState) :
    (animateFrame dt rng s).pu = (updatePowerUpLogic dt rng s).pu := rfl

theorem animateFrame_dt_irrelevant (dt₁ dt₂ : ℚ) (rng : ℕ → ℚ) (s : SimState)
    (h : s.pu.isActive = false) : animateFrame dt₁ rng s = animateFrame dt₂ rng s := by
  unfold animateFrame
  rw [updatePowerUpLogic_inactive dt₁ rng s h, updatePowerUpLogic_inactive dt₂ rng s h]

theorem animateFrame_preserves_inactive (dt : ℚ) (rng : ℕ → ℚ) (s : SimState)
    (h : s.pu.isActive = false) : (animateFrame dt rng s).pu.isActive = false := by
  rw [animateFrame_pu, updatePowerUpLogic_inactive dt rng s h]
  exact h

theorem runFrames_preserves_inactive (dts rng : ℕ → ℚ) (s : SimState)
    (h : s.pu.isActive = false) :
    ∀ n, (runFrames dts rng s n).pu.isActive = false
  | 0 => h
  | n + 1 =>
      animateFrame_preserves_inactive _ _ _ (runFrames_preserves_inactive dts rng s h n)

/-- C8 amended: with the random stream and launch-derived state fixed, the
simulation is deterministic up to the wall-clock frame deltas, which enter
only through the power-up cycle: as long as the power-up subsystem is
inactive, N-frame runs under arbitrary wall-clock delta sequences produce
identical states (in particular bit-identical `currentSpin` trajectories). -/
theorem run_deterministic_without_wall_clock :
    ∀ (N : ℕ) (dts₁ dts₂ rng : ℕ → ℚ) (s : SimState),
      s.pu.isActive = false →
      runFrames dts₁ rng s N = runFrames dts₂ rng s N := by
  intro N
  induction N with
  | zero => intro dts₁ dts₂ rng s _; rfl
  | succ n ih =>
      intro dts₁ dts₂ rng s h
      show animateFrame (dts₁ n) rng (runFrames dts₁ rng s n)
        = animateFrame (dts₂ n) rng (runFrames dts₂ rng s n)
      rw [ih dts₁ dts₂ rng s h]
      exact animateFrame_dt_irrelevant (dts₁ n) (dts₂ n) rng _
        (runFrames_preserves_inactive dts₂ rng s h n)

/-- C8 witness: the amended determinism theorem applied to a concrete
inactive state and two different wall-clock delta sequences. -/
theorem run_deterministic_without_wall_clock_witness :
    idleSimState.pu.isActive = false
    ∧ runFrames (fun _ => 7) (fun _ => 0) idleSimState 2
        = runFrames (fun _ => 9999) (fun _ => 0) idleSimState 2 :=
  ⟨rfl, run_deterministic_without_wall_clock 2 (fun _ => 7) (fun _ => 9999)
    (fun _ => 0) idleSimState rfl⟩

end BBlade
